import Mathlib

/-!
Shallow embedding of `main.py` of the misconfig-ConfigMutationTester repository.

The program is a configuration fuzzer: it loads a YAML/JSON configuration
file into a nested dictionary, walks the dictionary, mutates each non-mapping
value with a configurable probability, saves the result, optionally lints it
and optionally runs a test command against it.

Python values are embedded as the inductive `PyVal`; the global `random`
module is embedded as an explicit stream state `RSrc` threaded through the
functions; `logging` calls are embedded as an explicit list of `LogMsg`
values returned alongside each result; the filesystem and the external
processes (yamllint / jsonlint / the test command) are embedded as an
oracle `World` describing their observable responses.
-/

/-- A draw of Python's `random.random()`: a rational in the half-open unit
interval `[0, 1)`.  The bounds are part of the contract of `random.random`. -/
def UnitRat : Type := {q : ℚ // 0 ≤ q ∧ q < 1}

instance : DecidableEq UnitRat := fun a b =>
  decidable_of_iff (a.val = b.val) Subtype.ext_iff.symm

/-- Default draw used when a finite stream is exhausted (any value of the
stream type would do; theorems never depend on it beyond its `[0,1)` bounds). -/
def unitZero : UnitRat := ⟨0, by norm_num⟩

/-- Explicit random source replacing Python's global `random` module state.
Each kind of primitive draw used by `main.py` gets its own stream:
`rand` for `random.random()`, `ints` for `random.randint`, `unifs` for
`random.uniform`, and `choices` for the index picked by `random.choice`. -/
structure RSrc where
  rand : List UnitRat
  ints : List Int
  unifs : List ℚ
  choices : List Nat
deriving DecidableEq

/-- Draw of `random.random()` (used at line 132 and line 178 of main.py). -/
def popRand (s : RSrc) : UnitRat × RSrc :=
  (s.rand.headD unitZero, ⟨s.rand.tail, s.ints, s.unifs, s.choices⟩)

/-- Draw of `random.randint(lo, hi)`: an integer in the closed range
`[lo, hi]`; the head of the `ints` stream is clamped into the range,
so every in-range value is reachable and no out-of-range value is. -/
def popInt (s : RSrc) (lo hi : Int) : Int × RSrc :=
  (max lo (min hi (s.ints.headD 0)), ⟨s.rand, s.ints.tail, s.unifs, s.choices⟩)

/-- Draw of `random.uniform(lo, hi)`: a rational clamped into `[lo, hi]`. -/
def popUnif (s : RSrc) (lo hi : ℚ) : ℚ × RSrc :=
  (max lo (min hi (s.unifs.headD 0)), ⟨s.rand, s.ints, s.unifs.tail, s.choices⟩)

/-- Draw of one `random.choice(seq)` index: the head of the `choices`
stream reduced modulo the length of the sequence. -/
def popChoice (s : RSrc) (len : Nat) : Nat × RSrc :=
  (s.choices.headD 0 % len, ⟨s.rand, s.ints, s.unifs, s.choices.tail⟩)

mutual
/-- A Python value as it can occur in a configuration loaded from YAML/JSON:
a string, an int, a bool, a float (embedded as a rational), `None`, a list,
or a nested dict.  Lists and `None` are never inspected by the program and
act as the opaque unsupported leaf types. -/
inductive PyVal where
  | vstr (s : String)
  | vint (n : Int)
  | vbool (b : Bool)
  | vfloat (q : ℚ)
  | vnone
  | vlist (xs : PyList)
  | vdict (es : Entries)
deriving DecidableEq

/-- The elements of a Python list value. -/
inductive PyList where
  | lnil
  | lcons (v : PyVal) (rest : PyList)
deriving DecidableEq

/-- The key/value items of a Python dict, in insertion order (the order
`config.items()` iterates them). -/
inductive Entries where
  | enil
  | econs (k : String) (v : PyVal) (rest : Entries)
deriving DecidableEq
end

/-- Log messages emitted via the `logging` module, restricted to the
diagnostics the claims are about. -/
inductive LogMsg where
  | warnUnsupported (tyName : String)
  | infoExecuting (cmd : List Char)
  | infoStdout (out : String)
  | errStderr (err : String)
  | infoReturnCode (c : Int)
  | errExecuting
deriving DecidableEq

/-- Python's `type(value)` name for the values that reach the unsupported
branch of `mutate_value`. -/
def pyTypeName : PyVal → String
  | .vstr _ => "str"
  | .vint _ => "int"
  | .vbool _ => "bool"
  | .vfloat _ => "float"
  | .vnone => "NoneType"
  | .vlist _ => "list"
  | .vdict _ => "dict"

/-- The alphabet `"abcdefghijklmnopqrstuvwxyz0123456789"` of line 134. -/
def mutationChars : List Char :=
  "abcdefghijklmnopqrstuvwxyz0123456789".data

/-- The string built at line 136 by
`''.join(random.choice(chars) for _ in range(num_chars))`:
`n` successive `random.choice` draws over `mutationChars`. -/
def popChoiceChars (s : RSrc) (n : Nat) : List Char × RSrc :=
  match n with
  | 0 => ([], s)
  | n + 1 =>
      let p := popChoice s mutationChars.length
      let q := popChoiceChars p.2 n
      (mutationChars.getD p.1 'a' :: q.1, q.2)

/-- Python `isinstance(value, int)`.  In Python `bool` is a subclass of
`int`, so both int and bool values satisfy this test. -/
def pyIsInstanceInt : PyVal → Bool
  | .vint _ => true
  | .vbool _ => true
  | _ => false

/-- The Python int a value contributes to integer arithmetic
(`True` is 1 and `False` is 0). -/
def pyToInt : PyVal → Int
  | .vint n => n
  | .vbool b => if b then 1 else 0
  | _ => 0

/-- Embedding of `mutate_value` (main.py lines 119-160).  The dispatch
follows the source's `isinstance` chain in order: `str` (line 130), `int`
(line 145), `float` (line 149), `bool` (line 153), else (line 156).
Because Python's `bool` is a subclass of `int`, a boolean value already
satisfies the `isinstance(value, int)` test at line 145, so it is handled
by the integer branch (`value += random.randint(-5, 5)`, producing an int)
and the boolean-negation branch at lines 153-155 is unreachable. -/
def mutate_value (v : PyVal) (s : RSrc) : PyVal × RSrc × List LogMsg :=
  match v with
  | .vstr str =>
      let p := popRand s
      if p.1.val < 1/2 then
        -- add 1-5 random alphanumeric characters
        let q := popInt p.2 1 5
        let r := popChoiceChars q.2 q.1.toNat
        (.vstr ⟨str.data ++ r.1⟩, r.2, [])
      else
        -- remove some chars, if possible
        if str.data.length > 2 then
          let q := popInt p.2 1 (str.data.length / 2 : Nat)
          let r := popInt q.2 0 ((str.data.length : Int) - q.1)
          (.vstr ⟨str.data.take r.1.toNat ++
                  str.data.drop (r.1.toNat + q.1.toNat)⟩, r.2, [])
        else
          (.vstr "", p.2, [])
  | .vint n =>
      let p := popInt s (-5) 5
      (.vint (n + p.1), p.2, [])
  | .vbool b =>
      -- reached through the isinstance(value, int) test at line 145:
      -- bool is an int subclass, so value += randint(-5,5) yields an int
      let p := popInt s (-5) 5
      (.vint (pyToInt (.vbool b) + p.1), p.2, [])
  | .vfloat q =>
      let p := popUnif s (-(1/2)) (1/2)
      (.vfloat (q + p.1), p.2, [])
  | v =>
      -- unsupported types: log a warning and return the original value
      (v, s, [.warnUnsupported (pyTypeName v)])

/-- Embedding of `mutate_config` (main.py lines 163-181): for each item of
the dict in order, recurse into nested dicts unconditionally; otherwise draw
`random.random()` and mutate the value exactly when the draw is strictly
below the mutation rate. -/
def mutate_config (es : Entries) (rate : ℚ) (s : RSrc) :
    Entries × RSrc × List LogMsg :=
  match es with
  | .enil => (.enil, s, [])
  | .econs k v rest =>
      match v with
      | .vdict sub =>
          let p1 := mutate_config sub rate s
          let p2 := mutate_config rest rate p1.2.1
          (.econs k (.vdict p1.1) p2.1, p2.2.1, p1.2.2 ++ p2.2.2)
      | v =>
          let d := popRand s
          if d.1.val < rate then
            let p1 := mutate_value v d.2
            let p2 := mutate_config rest rate p1.2.1
            (.econs k p1.1 p2.1, p2.2.1, p1.2.2 ++ p2.2.2)
          else
            let p2 := mutate_config rest rate d.2
            (.econs k v p2.1, p2.2.1, p2.2.2)

mutual
/-- The key set and nesting structure of a value: a nested dict keeps its
item keys (in order) and their structures; every non-dict value is a leaf. -/
inductive Shape where
  | leaf
  | dict (es : ShapeList)
deriving DecidableEq

/-- The shapes of a dict's items. -/
inductive ShapeList where
  | snil
  | scons (k : String) (sh : Shape) (rest : ShapeList)
deriving DecidableEq
end

mutual
/-- Shape of a single value. -/
def shapeOfVal : PyVal → Shape
  | .vdict es => .dict (shapeOfEntries es)
  | _ => .leaf

/-- Shape of a dict's items. -/
def shapeOfEntries : Entries → ShapeList
  | .enil => .snil
  | .econs k v rest => .scons k (shapeOfVal v) (shapeOfEntries rest)
end

/-- Comparison definition, following the spec's words for the claim about
rates at or above 1: identical to `mutate_config` except that the Bernoulli
comparison is replaced by unconditional selection of every non-mapping leaf
(the selection draw is still consumed, exactly as in the source). -/
def mutate_config_forced (es : Entries) (s : RSrc) :
    Entries × RSrc × List LogMsg :=
  match es with
  | .enil => (.enil, s, [])
  | .econs k v rest =>
      match v with
      | .vdict sub =>
          let p1 := mutate_config_forced sub s
          let p2 := mutate_config_forced rest p1.2.1
          (.econs k (.vdict p1.1) p2.1, p2.2.1, p1.2.2 ++ p2.2.2)
      | v =>
          let d := popRand s
          let p1 := mutate_value v d.2
          let p2 := mutate_config_forced rest p1.2.1
          (.econs k p1.1 p2.1, p2.2.1, p1.2.2 ++ p2.2.2)

/-- Embedding of the `-m` (long form `--mutation_rate`) option of `setup_argparse`
(main.py lines 28-34): the option is declared with `type=float` and no
`choices` and no range check, so argparse accepts every float value and
passes it through unchanged. -/
def parse_mutation_rate (x : ℚ) : Option ℚ := some x

/-- The dict object a caller passes to `mutate_config`.  Python passes the
dict by reference; the wrapper below records what the caller's object holds
after the call. -/
structure ConfigCell where
  tree : Entries
deriving DecidableEq

/-- Embedding of the call `mutated_config = mutate_config(config, args.mutation_rate)`
at main.py line 255, seen from the caller: `mutate_config` receives a
reference to the caller's dict object and executes `config[key] = ...`
assignments directly on that object (lines 174-181), finally returning the
very same object (line 181).  The result records, in order: the caller's
object as it stands after the call, the returned tree, and the final
random-source state. -/
def mutate_config_call (cell : ConfigCell) (rate : ℚ) (s : RSrc) :
    ConfigCell × Entries × RSrc :=
  let p := mutate_config cell.tree rate s
  (⟨p.1⟩, p.1, p.2.1)

/-- Model of Python's `str.format` with a single positional argument, as
invoked at main.py line 193 (`command = test_command.format(config_file)`),
restricted to the documented placeholder form: the auto-numbered empty
replacement field (an opening brace directly followed by a closing brace)
and the doubled-brace escapes.  The boolean records whether the single
argument has already been consumed; a second replacement field raises
`IndexError` in Python and any other use of a brace raises `ValueError`,
both embedded as `none`. -/
def pyFormatCore (arg : List Char) : List Char → Bool → Option (List Char × Bool)
  | [], used => some ([], used)
  | c :: rest, used =>
      if c = '{' then
        match rest with
        | [] => none
        | c2 :: rest2 =>
            if c2 = '{' then
              Option.map (fun p => ('{' :: p.1, p.2))
                (pyFormatCore arg rest2 used)
            else if c2 = '}' then
              if used then none
              else
                Option.map (fun p => (arg ++ p.1, p.2))
                  (pyFormatCore arg rest2 true)
            else none
      else if c = '}' then
        match rest with
        | [] => none
        | c2 :: rest2 =>
            if c2 = '}' then
              Option.map (fun p => ('}' :: p.1, p.2))
                (pyFormatCore arg rest2 used)
            else none
      else
        Option.map (fun p => (c :: p.1, p.2)) (pyFormatCore arg rest used)

/-- Python `template.format(arg)` for a one-argument call. -/
def pyFormat (template arg : List Char) : Option (List Char) :=
  Option.map (fun p => p.1) (pyFormatCore arg template false)

/-- Number of replacement fields (placeholder tokens) in a template,
with doubled-brace escapes not counted. -/
def countPH : List Char → Nat
  | [] => 0
  | c :: rest =>
      if c = '{' then
        match rest with
        | [] => 0
        | c2 :: rest2 =>
            if c2 = '{' then countPH rest2
            else if c2 = '}' then countPH rest2 + 1
            else countPH rest2
      else if c = '}' then
        match rest with
        | [] => 0
        | c2 :: rest2 => if c2 = '}' then countPH rest2 else countPH rest2
      else countPH rest

/-- Formatting of a placeholder-free template piece: escapes are collapsed
and every other character is copied (the literal-text part of `str.format`). -/
def unescBraces : List Char → Option (List Char)
  | [] => some []
  | c :: rest =>
      if c = '{' then
        match rest with
        | [] => none
        | c2 :: rest2 =>
            if c2 = '{' then Option.map (fun l => '{' :: l) (unescBraces rest2)
            else none
      else if c = '}' then
        match rest with
        | [] => none
        | c2 :: rest2 =>
            if c2 = '}' then Option.map (fun l => '}' :: l) (unescBraces rest2)
            else none
      else
        Option.map (fun l => c :: l) (unescBraces rest)

/-- Python `path.endswith(suf)`: suffix test on the character sequence. -/
def pyEndsWith (path suf : String) : Bool :=
  suf.data.isSuffixOf path.data

/-- Extension dispatch for YAML: `config_file.endswith((".yaml", ".yml"))`.
-/
def isYamlFile (path : String) : Bool :=
  pyEndsWith path ".yaml" || pyEndsWith path ".yml"

/-- Extension dispatch for JSON: `config_file.endswith(".json")`. -/
def isJsonFile (path : String) : Bool :=
  pyEndsWith path ".json"

/-- The command-line arguments produced by `setup_argparse`
(main.py lines 13-52). -/
structure Args where
  config_file : String
  mutation_rate : ℚ
  output_file : Option String
  test_command : Option (List Char)
  lint : Bool
deriving DecidableEq

/-- Result of a completed external process: exit code plus the captured
output streams (`subprocess.run(..., capture_output=True, text=True)`). -/
structure ExecResult where
  code : Int
  stdout : String
  stderr : String
deriving DecidableEq

/-- Observable behaviour of one external linter invocation: the process
completed with an exit code, the tool was not found (`FileNotFoundError`),
or the invocation raised some other exception. -/
inductive LintOutcome where
  | completed (code : Int)
  | toolMissing
  | raised
deriving DecidableEq

/-- Oracle for everything outside the program: the filesystem and the
external processes.  `inputExists` answers the `os.path.exists` check;
`parseOk` says whether the document parses; `loaded` is the parsed mapping
(the model assumes the document denotes a mapping, as `mutate_config`
requires); `writeOk` says whether dumping to the opened output file
succeeds; `yamllint` and `jsonlint` describe the linter invocations; and
`testRun` describes the test-command invocation (`none` meaning
`subprocess.run` itself raised).  `rsrc` is the state of Python's global
`random` module at the start of the run. -/
structure World where
  inputExists : Bool
  parseOk : Bool
  loaded : Entries
  writeOk : Bool
  yamllint : LintOutcome
  jsonlint : LintOutcome
  testRun : Option ExecResult
  rsrc : RSrc
deriving DecidableEq

/-- The exceptions distinguished by `main`'s handlers (lines 282-290):
`FileNotFoundError`, `ValueError` (including `json.JSONDecodeError`), and
any other exception (including `yaml.YAMLError`). -/
inductive PyErr where
  | fileNotFound
  | valueError
  | otherError
deriving DecidableEq

/-- Embedding of `load_config` (main.py lines 55-88): missing file raises
`FileNotFoundError` (line 71); then the open file is parsed as YAML or JSON
according to the extension, a parse failure re-raising the parser's
exception; any other extension raises `ValueError` (line 81). -/
def load_config (config_file : String) (w : World) : Except PyErr Entries :=
  if !w.inputExists then .error .fileNotFound
  else if isYamlFile config_file then
    if w.parseOk then .ok w.loaded else .error .otherError
  else if isJsonFile config_file then
    if w.parseOk then .ok w.loaded else .error .valueError
  else .error .valueError

/-- Embedding of `save_config` (main.py lines 91-116).  The output file is
opened with mode "w" (line 104) before the extension is examined, so the
file is created/truncated in every branch that is reached; the returned
boolean records that the file was opened.  An unsupported extension then
raises `ValueError` (line 110); a dump failure raises the underlying
exception. -/
def save_config (output_file : String) (w : World) : Except PyErr Unit × Bool :=
  if isYamlFile output_file || isJsonFile output_file then
    (if w.writeOk then (.ok (), true) else (.error .otherError, true))
  else (.error .valueError, true)

/-- Embedding of `lint_config` (main.py lines 208-241): YAML files are
checked with `yamllint`, JSON files with `jsonlint`; a nonzero exit code
returns `False`, a `FileNotFoundError` (tool missing, line 236) returns
`False`, any other exception returns `False` (line 239), and an
unrecognized extension skips linting and returns `True` (line 232). -/
def lint_config (config_file : String) (yl jl : LintOutcome) : Bool :=
  if isYamlFile config_file then
    match yl with
    | .completed c => c == 0
    | .toolMissing => false
    | .raised => false
  else if isJsonFile config_file then
    match jl with
    | .completed c => c == 0
    | .toolMissing => false
    | .raised => false
  else true

/-- Embedding of `run_test_command` (main.py lines 184-205): the command is
built by substituting the config-file path into the template via
`str.format` (line 193) and run through the shell; the function returns the
process's exit code, logging the command, its output streams and its return
code.  Any exception inside the `try` block - a malformed template making
`format` raise, or `subprocess.run` itself raising - is caught at line 203,
logged as an execution error, and turned into the sentinel return value
`-1`. -/
def run_test_command (config_file : String) (test_command : List Char)
    (outcome : Option ExecResult) : Int × List LogMsg :=
  match pyFormat test_command config_file.data with
  | none => (-1, [.errExecuting])
  | some cmd =>
      match outcome with
      | none => (-1, [.errExecuting])
      | some r =>
          (r.code,
           [.infoExecuting cmd, .infoStdout r.stdout] ++
             (if r.stderr ≠ "" then [.errStderr r.stderr] else []) ++
             [.infoReturnCode r.code])

/-- Observable side effects of one pipeline run: whether the output file
was opened (created or truncated), the tree that was successfully written
to it (if any), whether the lint stage ran, and whether `run_test_command`
was invoked. -/
structure Trace where
  outputOpened : Bool
  saved : Option Entries
  lintRan : Bool
  testCommandRan : Bool
deriving DecidableEq

/-- Embedding of `main` (main.py lines 243-290): load, mutate, save,
optional lint gate, optional test command, with every failure converted to
exit code 1 by the stage logic or the exception handlers at lines 282-290.
The result is the process exit code together with the trace of observable
side effects. -/
def main_run (args : Args) (w : World) : Int × Trace :=
  match load_config args.config_file w with
  | .error _ => (1, ⟨false, none, false, false⟩)
  | .ok config =>
      let mutated := (mutate_config config args.mutation_rate w.rsrc).1
      let output_file := args.output_file.getD args.config_file
      match save_config output_file w with
      | (.error _, opened) => (1, ⟨opened, none, false, false⟩)
      | (.ok _, opened) =>
          if args.lint && !(lint_config output_file w.yamllint w.jsonlint) then
            (1, ⟨opened, some mutated, true, false⟩)
          else
            match args.test_command with
            | none => (0, ⟨opened, some mutated, args.lint, false⟩)
            | some tc =>
                let rc := (run_test_command output_file tc w.testRun).1
                if rc != 0 then (1, ⟨opened, some mutated, args.lint, true⟩)
                else (0, ⟨opened, some mutated, args.lint, true⟩)

/-- The values that fail every `isinstance` test of `mutate_value` and so
reach its unsupported-type branch (line 156): everything that is neither a
string, an int (booleans included, since Python's `bool` is an int
subclass), nor a float. -/
def unsupportedType : PyVal → Bool
  | .vnone => true
  | .vlist _ => true
  | .vdict _ => true
  | _ => false

/-! ## Unfolding lemmas for the tree mutator -/

theorem mutate_config_enil (rate : ℚ) (s : RSrc) :
    mutate_config .enil rate s = (.enil, s, []) := rfl

theorem mutate_config_econs_dict (k : String) (sub rest : Entries)
    (rate : ℚ) (s : RSrc) :
    mutate_config (.econs k (.vdict sub) rest) rate s =
      (.econs k (.vdict (mutate_config sub rate s).1)
        (mutate_config rest rate (mutate_config sub rate s).2.1).1,
       (mutate_config rest rate (mutate_config sub rate s).2.1).2.1,
       (mutate_config sub rate s).2.2 ++
         (mutate_config rest rate (mutate_config sub rate s).2.1).2.2) := rfl

theorem mutate_config_econs_leaf (k : String) (v : PyVal) (rest : Entries)
    (rate : ℚ) (s : RSrc) (hv : ∀ sub, v ≠ PyVal.vdict sub) :
    mutate_config (.econs k v rest) rate s =
      (if (popRand s).1.val < rate then
        (.econs k (mutate_value v (popRand s).2).1
          (mutate_config rest rate (mutate_value v (popRand s).2).2.1).1,
         (mutate_config rest rate (mutate_value v (popRand s).2).2.1).2.1,
         (mutate_value v (popRand s).2).2.2 ++
           (mutate_config rest rate (mutate_value v (popRand s).2).2.1).2.2)
      else
        (.econs k v (mutate_config rest rate (popRand s).2).1,
         (mutate_config rest rate (popRand s).2).2.1,
         (mutate_config rest rate (popRand s).2).2.2)) := by
  cases v
  case vdict sub => exact absurd rfl (hv sub)
  all_goals rfl

theorem mutate_config_forced_enil (s : RSrc) :
    mutate_config_forced .enil s = (.enil, s, []) := rfl

theorem mutate_config_forced_econs_dict (k : String) (sub rest : Entries)
    (s : RSrc) :
    mutate_config_forced (.econs k (.vdict sub) rest) s =
      (.econs k (.vdict (mutate_config_forced sub s).1)
        (mutate_config_forced rest (mutate_config_forced sub s).2.1).1,
       (mutate_config_forced rest (mutate_config_forced sub s).2.1).2.1,
       (mutate_config_forced sub s).2.2 ++
         (mutate_config_forced rest (mutate_config_forced sub s).2.1).2.2) := rfl

theorem mutate_config_forced_econs_leaf (k : String) (v : PyVal)
    (rest : Entries) (s : RSrc) (hv : ∀ sub, v ≠ PyVal.vdict sub) :
    mutate_config_forced (.econs k v rest) s =
      (.econs k (mutate_value v (popRand s).2).1
        (mutate_config_forced rest (mutate_value v (popRand s).2).2.1).1,
       (mutate_config_forced rest (mutate_value v (popRand s).2).2.1).2.1,
       (mutate_value v (popRand s).2).2.2 ++
         (mutate_config_forced rest (mutate_value v (popRand s).2).2.1).2.2) := by
  cases v
  case vdict sub => exact absurd rfl (hv sub)
  all_goals rfl

/-- Shared helper: at a rate at or below zero, no draw in `[0,1)` can be
strictly below the rate, so nothing is mutated. -/
theorem mutate_config_nonpos_rate (es : Entries) (rate : ℚ) (s : RSrc) :
    rate ≤ 0 → (mutate_config es rate s).1 = es := by
  induction es, rate, s using mutate_config.induct with
  | case1 rate s => intro _; rfl
  | case2 rate s k rest sub p1 ih1 ih2 =>
      intro h
      rw [mutate_config_econs_dict]
      simp only [ih1 h, ih2 h]
  | case3 rate s k rest v hv d hd p1 ih =>
      intro h
      exact absurd (lt_of_lt_of_le hd h) (not_lt.mpr (popRand s).1.2.1)
  | case4 rate s k rest v hv d hd ih =>
      intro h
      rw [mutate_config_econs_leaf k v rest rate s (fun sub he => hv sub he)]
      rw [if_neg hd]
      simp only [ih h]

/-- A value that is not a dict has leaf shape. -/
theorem shapeOfVal_leaf (v : PyVal) (hv : ∀ sub, v ≠ PyVal.vdict sub) :
    shapeOfVal v = .leaf := by
  cases v
  case vdict sub => exact absurd rfl (hv sub)
  all_goals rfl

/-- The value mutator never turns a non-dict value into a dict: every
branch of `mutate_value` on a non-dict input returns a non-dict value. -/
theorem shapeOfVal_mutate_value (v : PyVal) (s : RSrc)
    (hv : ∀ sub, v ≠ PyVal.vdict sub) :
    shapeOfVal (mutate_value v s).1 = .leaf := by
  cases v
  case vdict sub => exact absurd rfl (hv sub)
  all_goals simp only [mutate_value]
  all_goals repeat' split
  all_goals rfl

/-- Shared helper: the tree mutator preserves keys and nesting structure. -/
theorem mutate_config_shape (es : Entries) (rate : ℚ) (s : RSrc) :
    shapeOfEntries (mutate_config es rate s).1 = shapeOfEntries es := by
  induction es, rate, s using mutate_config.induct with
  | case1 rate s => rfl
  | case2 rate s k rest sub p1 ih1 ih2 =>
      rw [mutate_config_econs_dict]
      simp only [shapeOfEntries, shapeOfVal, ih1, ih2]
  | case3 rate s k rest v hv d hd p1 ih =>
      have hv' : ∀ sub, v ≠ PyVal.vdict sub := fun sub he => hv sub he
      rw [mutate_config_econs_leaf k v rest rate s hv']
      rw [if_pos (show (popRand s).1.val < rate from hd)]
      simp only [shapeOfEntries, ih]
      rw [shapeOfVal_mutate_value v _ hv', shapeOfVal_leaf v hv']
  | case4 rate s k rest v hv d hd ih =>
      rw [mutate_config_econs_leaf k v rest rate s (fun sub he => hv sub he)]
      rw [if_neg (show ¬ (popRand s).1.val < rate from hd)]
      simp only [shapeOfEntries, ih]

/-- Shared helper: at a rate at or above one, every draw in `[0,1)` is
strictly below the rate, so the run coincides with the forced mutator. -/
theorem mutate_config_ge_one (es : Entries) (rate : ℚ) (s : RSrc) :
    1 ≤ rate → mutate_config es rate s = mutate_config_forced es s := by
  induction es, rate, s using mutate_config.induct with
  | case1 rate s => intro _; rfl
  | case2 rate s k rest sub p1 ih1 ih2 =>
      intro h
      rw [mutate_config_econs_dict, mutate_config_forced_econs_dict]
      have h1 := ih1 h
      have h2 : mutate_config rest rate (mutate_config_forced sub s).2.1 =
          mutate_config_forced rest (mutate_config_forced sub s).2.1 := by
        rw [← h1]; exact ih2 h
      rw [h1, h2]
  | case3 rate s k rest v hv d hd p1 ih =>
      intro h
      have hv' : ∀ sub, v ≠ PyVal.vdict sub := fun sub he => hv sub he
      rw [mutate_config_econs_leaf k v rest rate s hv']
      rw [if_pos (show (popRand s).1.val < rate from hd)]
      rw [mutate_config_forced_econs_leaf k v rest s hv', ih h]
  | case4 rate s k rest v hv d hd ih =>
      intro h
      have hlt : (popRand s).1.val < rate :=
        lt_of_lt_of_le (popRand s).1.2.2 h
      exact absurd hlt hd

/-! ## Claim theorems: the mutation engine -/

/-- C1.  The claim states that `mutate_value` returns the logical negation
of every boolean leaf.  The code does not: because Python's `bool` is a
subclass of `int`, the `isinstance(value, int)` test at line 145 captures
booleans before the boolean branch at line 153 is ever reached, and the
value is mutated by integer addition instead.  On input `True` with a
`randint(-5, 5)` draw of `3`, `mutate_value` returns the integer `4`
(`True + 3` in Python), not `False`; the negation branch is dead code. -/
theorem mutate_value_bool_not_negation :
    mutate_value (.vbool true) ⟨[], [3], [], []⟩ =
      (.vint 4, ⟨[], [], [], []⟩, []) ∧
    (PyVal.vint 4 ≠ .vbool false ∧ PyVal.vint 4 ≠ .vbool true) := by
  constructor
  · rfl
  · constructor <;> intro h <;> cases h

/-- C2.  Identity at rate 0: for every config tree and every state of the
random source, `mutate_config` at rate `0.0` returns the tree unchanged,
because a `random.random()` draw lies in `[0, 1)` and so is never strictly
below the zero threshold. -/
theorem mutate_config_rate_zero_identity (es : Entries) (s : RSrc) :
    (mutate_config es 0 s).1 = es :=
  mutate_config_nonpos_rate es 0 s le_rfl

/-- C3.  Shape preservation: for every config tree, every mutation rate and
every state of the random source, the mutated tree has exactly the key set
and nesting structure of the input; mutation only ever replaces non-mapping
leaf values. -/
theorem mutate_config_preserves_shape (es : Entries) (rate : ℚ) (s : RSrc) :
    shapeOfEntries (mutate_config es rate s).1 = shapeOfEntries es :=
  mutate_config_shape es rate s

/-- C4.  Unsupported-type passthrough: a leaf whose type is not one of
string / int / float / bool (for example a list or `None`) is returned
unchanged by `mutate_value` - even when the Bernoulli trial has already
selected it for mutation, since that trial happens in `mutate_config`
before `mutate_value` is called - and the warning diagnostic naming the
unsupported type is emitted. -/
theorem mutate_value_unsupported_passthrough (v : PyVal) (s : RSrc)
    (hv : unsupportedType v = true) :
    mutate_value v s = (v, s, [.warnUnsupported (pyTypeName v)]) := by
  cases v <;> simp_all [unsupportedType] <;> rfl

/-- Witness for C4 at the concrete opaque leaves `None` and the empty
list, with an arbitrary concrete random state. -/
theorem mutate_value_unsupported_passthrough_witness :
    unsupportedType .vnone = true ∧
    mutate_value .vnone ⟨[unitZero], [7], [], []⟩ =
      (.vnone, ⟨[unitZero], [7], [], []⟩, [.warnUnsupported "NoneType"]) :=
  ⟨rfl, mutate_value_unsupported_passthrough .vnone ⟨[unitZero], [7], [], []⟩ rfl⟩

/-- C9 counterexample.  The claim states that `mutate_tree` leaves the
caller's tree unmodified.  It does not: `mutate_config` assigns into the
dict object the caller passed and returns that same object, so after
`mutated_config = mutate_config(config, rate)` the caller's `config` holds
the mutated entries.  Concretely, for the one-entry tree `a ↦ 0` at rate 1
with a selection draw of `0` and an integer delta draw of `3`, the
caller's object afterwards holds `a ↦ 3`, not the original tree. -/
theorem mutate_config_call_changes_caller_tree :
    (mutate_config_call ⟨.econs "a" (.vint 0) .enil⟩ 1
        ⟨[unitZero], [3], [], []⟩).1 ≠ ⟨.econs "a" (.vint 0) .enil⟩ := by
  intro h
  have h2 := congrArg ConfigCell.tree h
  simp only [mutate_config_call] at h2
  exact absurd h2 (by decide)

/-- C9 amended.  `mutate_config` is deterministic in its inputs and the
random source, but it mutates the caller's dict in place and returns that
same object: after the call the caller's tree always coincides with the
returned tree, and it equals the original input only in runs where no leaf
was selected - in particular always at rate 0. -/
theorem mutate_config_call_in_place_aliasing (cell : ConfigCell)
    (rate : ℚ) (s : RSrc) :
    (mutate_config_call cell rate s).1.tree =
      (mutate_config_call cell rate s).2.1 ∧
    (mutate_config_call cell 0 s).1 = cell := by
  refine ⟨rfl, ?_⟩
  simp only [mutate_config_call]
  cases cell
  simp only [ConfigCell.mk.injEq]
  exact mutate_config_nonpos_rate _ 0 s le_rfl

/-- C10.  A rate at or above 1 forces mutation of every non-mapping leaf:
each `random.random()` draw lies in `[0, 1)` and so is strictly below such
a rate, making the run coincide with the always-select variant of the
mutator; and argparse performs no range validation on `--mutation_rate`,
accepting every float, including values outside `[0.0, 1.0]`. -/
theorem mutate_config_rate_ge_one_forces_all (es : Entries) (rate : ℚ)
    (s : RSrc) (h : 1 ≤ rate) :
    mutate_config es rate s = mutate_config_forced es s ∧
    parse_mutation_rate rate = some rate :=
  ⟨mutate_config_ge_one es rate s h, rfl⟩

/-- Witness for C10 at the concrete rate `3/2` (outside the documented
closed range) on a two-entry tree with concrete draws. -/
theorem mutate_config_rate_ge_one_forces_all_witness :
    (1 : ℚ) ≤ 3/2 ∧
    (mutate_config (.econs "a" (.vint 0) (.econs "b" .vnone .enil)) (3/2)
        ⟨[unitZero, unitZero], [3], [], []⟩ =
      mutate_config_forced (.econs "a" (.vint 0) (.econs "b" .vnone .enil))
        ⟨[unitZero, unitZero], [3], [], []⟩ ∧
     parse_mutation_rate (3/2) = some (3/2)) :=
  ⟨by norm_num,
   mutate_config_rate_ge_one_forces_all
     (.econs "a" (.vint 0) (.econs "b" .vnone .enil)) (3/2)
     ⟨[unitZero, unitZero], [3], [], []⟩ (by norm_num)⟩

/-! ## Claim theorems: the pipeline -/

/-- C6.  If the load stage fails because the input file is absent
(`os.path.exists` false, so `load_config` raises `FileNotFoundError`), the
handler at line 282 makes the run exit with code 1 and no later stage runs:
the output file is never opened, nothing is saved, and neither the linter
nor the test command is invoked. -/
theorem load_failure_exits_without_output (args : Args) (w : World)
    (h : w.inputExists = false) :
    main_run args w = (1, ⟨false, none, false, false⟩) := by
  simp [main_run, load_config, h]

/-- Witness for C6 on a concrete argument vector and world whose input
file does not exist. -/
theorem load_failure_exits_without_output_witness :
    (World.mk false true .enil true (.completed 0) (.completed 0) none
        ⟨[], [], [], []⟩).inputExists = false ∧
    main_run ⟨"conf.yaml", 1/10, some "out.yaml", some ['l', 's'], false⟩
        ⟨false, true, .enil, true, .completed 0, .completed 0, none,
         ⟨[], [], [], []⟩⟩ =
      (1, ⟨false, none, false, false⟩) :=
  ⟨rfl,
   load_failure_exits_without_output
     ⟨"conf.yaml", 1/10, some "out.yaml", some ['l', 's'], false⟩
     ⟨false, true, .enil, true, .completed 0, .completed 0, none,
      ⟨[], [], [], []⟩⟩ rfl⟩

/-- C5.  The lint gate short-circuits the pipeline: in every run where
linting is requested (`--lint`) and the lint stage fails - the linter for
the persisted file's format exits nonzero, or the linter tool is missing -
`main` returns 1 at line 267 and `run_test_command` is never invoked. -/
theorem lint_failure_short_circuits_test (args : Args) (w : World)
    (hl : args.lint = true)
    (hin : w.inputExists = true) (hp : w.parseOk = true)
    (hw : w.writeOk = true)
    (hcf : isYamlFile args.config_file = true ∨
           isJsonFile args.config_file = true)
    (hfail :
      (isYamlFile (args.output_file.getD args.config_file) = true ∧
        (w.yamllint = .toolMissing ∨
         ∃ c, w.yamllint = .completed c ∧ c ≠ 0)) ∨
      (isYamlFile (args.output_file.getD args.config_file) = false ∧
        isJsonFile (args.output_file.getD args.config_file) = true ∧
        (w.jsonlint = .toolMissing ∨
         ∃ c, w.jsonlint = .completed c ∧ c ≠ 0))) :
    (main_run args w).1 = 1 ∧ (main_run args w).2.testCommandRan = false := by
  have hload : load_config args.config_file w = .ok w.loaded := by
    by_cases hy : isYamlFile args.config_file = true
    · simp [load_config, hin, hp, hy]
    · have hj : isJsonFile args.config_file = true := by
        rcases hcf with h | h
        · exact absurd h hy
        · exact h
      simp [load_config, hin, hp, hj]
  have hout : isYamlFile (args.output_file.getD args.config_file) = true ∨
      isJsonFile (args.output_file.getD args.config_file) = true := by
    rcases hfail with ⟨h1, _⟩ | ⟨_, h1, _⟩
    · exact Or.inl h1
    · exact Or.inr h1
  have hsave : save_config (args.output_file.getD args.config_file) w =
      (.ok (), true) := by
    rcases hout with h1 | h1 <;> simp [save_config, hw, h1]
  have hlint : lint_config (args.output_file.getD args.config_file)
      w.yamllint w.jsonlint = false := by
    rcases hfail with ⟨h1, h2⟩ | ⟨h0, h1, h2⟩
    · rcases h2 with h2 | ⟨c, h2, hc⟩ <;>
        simp [lint_config, h1, h2]
      omega
    · rcases h2 with h2 | ⟨c, h2, hc⟩ <;>
        simp [lint_config, h0, h1, h2]
      omega
  simp [main_run, hload, hsave, hlint, hl]

/-- Witness for C5: a concrete run with `--lint`, a YAML output file and a
missing yamllint tool exits 1 without running the test command. -/
theorem lint_failure_short_circuits_test_witness :
    (main_run ⟨"conf.yaml", 0, none, some ['l', 's'], true⟩
        ⟨true, true, .enil, true, .toolMissing, .completed 0,
         some ⟨0, "", ""⟩, ⟨[], [], [], []⟩⟩).1 = 1 ∧
    (main_run ⟨"conf.yaml", 0, none, some ['l', 's'], true⟩
        ⟨true, true, .enil, true, .toolMissing, .completed 0,
         some ⟨0, "", ""⟩, ⟨[], [], [], []⟩⟩).2.testCommandRan = false :=
  lint_failure_short_circuits_test
    ⟨"conf.yaml", 0, none, some ['l', 's'], true⟩
    ⟨true, true, .enil, true, .toolMissing, .completed 0,
     some ⟨0, "", ""⟩, ⟨[], [], [], []⟩⟩
    rfl rfl rfl rfl (Or.inl (by decide))
    (Or.inl ⟨by decide, Or.inl rfl⟩)

/-- C8.  An exception raised by the invocation mechanism itself is reported
as a distinguished failure: the except branch of `run_test_command` logs an
execution-error diagnostic and returns the sentinel `-1`, which no process
that actually ran and exited can produce (exit codes from a completed
process are nonnegative), whereas a completed process's nonzero exit code
is returned as-is together with its command/output/return-code logs. -/
theorem run_test_command_exception_distinguished (config_file : String)
    (test_command cmd : List Char) (r : ExecResult)
    (hfmt : pyFormat test_command config_file.data = some cmd)
    (hc : 0 ≤ r.code) (hnz : r.code ≠ 0) :
    run_test_command config_file test_command (some r) ≠
      run_test_command config_file test_command none ∧
    run_test_command config_file test_command none = (-1, [.errExecuting]) ∧
    (run_test_command config_file test_command (some r)).1 = r.code ∧
    (run_test_command config_file test_command (some r)).1 ≠ 0 := by
  have hsome : (run_test_command config_file test_command (some r)).1 =
      r.code := by
    simp [run_test_command, hfmt]
  have hnone : run_test_command config_file test_command none =
      (-1, [.errExecuting]) := by
    simp [run_test_command, hfmt]
  refine ⟨?_, hnone, hsome, by rw [hsome]; exact hnz⟩
  intro hEq
  have h1 : (run_test_command config_file test_command (some r)).1 =
      (run_test_command config_file test_command none).1 :=
    congrArg Prod.fst hEq
  rw [hsome, hnone] at h1
  omega

/-- Witness for C8: the template `echo {}` with exit code 2 versus an
invocation exception. -/
theorem run_test_command_exception_distinguished_witness :
    pyFormat ['e', 'c', 'h', 'o', ' ', '{', '}'] "out.yaml".data =
      some ['e', 'c', 'h', 'o', ' ', 'o', 'u', 't', '.', 'y', 'a', 'm', 'l'] ∧
    run_test_command "out.yaml" ['e', 'c', 'h', 'o', ' ', '{', '}']
        (some ⟨2, "", ""⟩) ≠
      run_test_command "out.yaml" ['e', 'c', 'h', 'o', ' ', '{', '}'] none :=
  ⟨by decide,
   (run_test_command_exception_distinguished "out.yaml"
     ['e', 'c', 'h', 'o', ' ', '{', '}']
     ['e', 'c', 'h', 'o', ' ', 'o', 'u', 't', '.', 'y', 'a', 'm', 'l']
     ⟨2, "", ""⟩ (by decide) (by decide) (by decide)).1⟩

/-! ## Claim theorems: the test-command template substitution -/

/-- Unfolding lemma: `countPH` on a non-brace head character. -/

theorem countPH_cons_other (c : Char) (rest : List Char)
    (h1 : c ≠ '{') (h2 : c ≠ '}') : countPH (c :: rest) = countPH rest := by
  rw [countPH.eq_def]
  simp only [if_neg h1, if_neg h2]

/-- Unfolding lemma: `pyFormatCore` copies a non-brace head character. -/
theorem pyFormatCore_cons_other (arg : List Char) (c : Char) (rest : List Char) (b : Bool)
    (h1 : c ≠ '{') (h2 : c ≠ '}') :
    pyFormatCore arg (c :: rest) b =
      Option.map (fun p => (c :: p.1, p.2)) (pyFormatCore arg rest b) := by
  rw [pyFormatCore.eq_def]
  simp only [if_neg h1, if_neg h2]

/-- Unfolding lemma: `unescBraces` copies a non-brace head character. -/
theorem unescBraces_cons_other (c : Char) (rest : List Char)
    (h1 : c ≠ '{') (h2 : c ≠ '}') :
    unescBraces (c :: rest) =
      Option.map (fun l => c :: l) (unescBraces rest) := by
  rw [unescBraces.eq_def]
  simp only [if_neg h1, if_neg h2]

/-- A template piece with no replacement field formats to its unescaped
literal text, leaving the used-flag unchanged. -/
theorem pyFormatCore_literal_segment (arg : List Char) :
    ∀ (tpl : List Char) (used : Bool), ∀ (out : List Char) (b2 : Bool),
      countPH tpl = 0 → pyFormatCore arg tpl used = some (out, b2) →
      unescBraces tpl = some out ∧ b2 = used := by
  intro tpl used
  induction tpl, used using pyFormatCore.induct arg with
  | case1 used =>
      intro out b2 _ hc
      rw [show pyFormatCore arg [] used = some ([], used) from rfl] at hc
      simp only [Option.some.injEq, Prod.mk.injEq] at hc
      exact ⟨by rw [← hc.1]; rfl, hc.2.symm⟩
  | case2 used =>
      intro out b2 _ hc
      rw [show pyFormatCore arg ['{'] used = none from rfl] at hc
      cases hc
  | case3 used rest2 ih =>
      intro out b2 h0 hc
      rw [show countPH ('{' :: '{' :: rest2) = countPH rest2 from rfl] at h0
      rw [show pyFormatCore arg ('{' :: '{' :: rest2) used =
            Option.map (fun p => ('{' :: p.1, p.2))
              (pyFormatCore arg rest2 used) from rfl] at hc
      rw [Option.map_eq_some'] at hc
      obtain ⟨⟨o2, b3⟩, hcore, hout⟩ := hc
      simp only [Prod.mk.injEq] at hout
      obtain ⟨hu, hb⟩ := ih o2 b3 h0 hcore
      rw [show unescBraces ('{' :: '{' :: rest2) =
            Option.map (fun l => '{' :: l) (unescBraces rest2) from rfl]
      rw [hu, ← hout.1, hout.2] at *
      exact ⟨rfl, hb⟩
  | case4 rest2 hne =>
      intro out b2 h0 hc
      rw [show pyFormatCore arg ('{' :: '}' :: rest2) true = none from rfl] at hc
      cases hc
  | case5 used rest2 hused hne ih =>
      intro out b2 h0 hc
      rw [show countPH ('{' :: '}' :: rest2) = countPH rest2 + 1 from rfl] at h0
      omega
  | case6 used c2 rest2 h1 h2 =>
      intro out b2 h0 hc
      rw [show pyFormatCore arg ('{' :: c2 :: rest2) used = none by
            rw [pyFormatCore.eq_def]
            simp only [if_neg h1, if_neg h2]
            simp] at hc
      cases hc
  | case7 used hne =>
      intro out b2 h0 hc
      rw [show pyFormatCore arg ['}'] used = none from rfl] at hc
      cases hc
  | case8 used rest2 hne ih =>
      intro out b2 h0 hc
      rw [show countPH ('}' :: '}' :: rest2) = countPH rest2 from rfl] at h0
      rw [show pyFormatCore arg ('}' :: '}' :: rest2) used =
            Option.map (fun p => ('}' :: p.1, p.2))
              (pyFormatCore arg rest2 used) from rfl] at hc
      rw [Option.map_eq_some'] at hc
      obtain ⟨⟨o2, b3⟩, hcore, hout⟩ := hc
      simp only [Prod.mk.injEq] at hout
      obtain ⟨hu, hb⟩ := ih o2 b3 h0 hcore
      rw [show unescBraces ('}' :: '}' :: rest2) =
            Option.map (fun l => '}' :: l) (unescBraces rest2) from rfl]
      rw [hu, ← hout.1, hout.2] at *
      exact ⟨rfl, hb⟩
  | case9 used c2 rest2 h2 hne =>
      intro out b2 h0 hc
      rw [show pyFormatCore arg ('}' :: c2 :: rest2) used = none by
            rw [pyFormatCore.eq_def]
            simp only [if_neg h2]
            simp] at hc
      cases hc
  | case10 c rest used h1 h2 ih =>
      intro out b2 h0 hc
      rw [countPH_cons_other c rest h1 h2] at h0
      rw [pyFormatCore_cons_other arg c rest used h1 h2, Option.map_eq_some'] at hc
      obtain ⟨⟨o2, b3⟩, hcore, hout⟩ := hc
      simp only [Prod.mk.injEq] at hout
      obtain ⟨hu, hb⟩ := ih o2 b3 h0 hcore
      rw [unescBraces_cons_other c rest h1 h2, hu, ← hout.1, hout.2] at *
      exact ⟨rfl, hb⟩

/-- Decomposition of a successful format of a template containing exactly
one replacement field: the template splits as a placeholder-free prefix,
the single placeholder, and a placeholder-free tail, and the output is the
formatted prefix, then the argument - inserted exactly once - then the
formatted tail. -/
theorem pyFormatCore_single_placeholder (arg : List Char) :
    ∀ (tpl : List Char) (used : Bool), ∀ (out : List Char) (b2 : Bool),
      used = false → countPH tpl = 1 →
      pyFormatCore arg tpl used = some (out, b2) →
      ∃ pre post upre upost,
        tpl = pre ++ '{' :: '}' :: post ∧
        countPH pre = 0 ∧ countPH post = 0 ∧
        unescBraces pre = some upre ∧ unescBraces post = some upost ∧
        out = upre ++ arg ++ upost := by
  intro tpl used
  induction tpl, used using pyFormatCore.induct arg with
  | case1 used =>
      intro out b2 _ h0 hc
      rw [show countPH ([] : List Char) = 0 from rfl] at h0
      omega
  | case2 used =>
      intro out b2 _ _ hc
      rw [show pyFormatCore arg ['{'] used = none from rfl] at hc
      cases hc
  | case3 used rest2 ih =>
      intro out b2 hu h0 hc
      rw [show countPH ('{' :: '{' :: rest2) = countPH rest2 from rfl] at h0
      rw [show pyFormatCore arg ('{' :: '{' :: rest2) used =
            Option.map (fun p => ('{' :: p.1, p.2))
              (pyFormatCore arg rest2 used) from rfl] at hc
      rw [Option.map_eq_some'] at hc
      obtain ⟨⟨o2, b3⟩, hcore, hout⟩ := hc
      simp only [Prod.mk.injEq] at hout
      obtain ⟨pre, post, upre, upost, he, hp0, hq0, hupre, hupost, ho⟩ :=
        ih o2 b3 hu h0 hcore
      refine ⟨'{' :: '{' :: pre, post, '{' :: upre, upost, ?_, ?_, hq0, ?_, hupost, ?_⟩
      · rw [he]; rfl
      · rw [show countPH ('{' :: '{' :: pre) = countPH pre from rfl]; exact hp0
      · rw [show unescBraces ('{' :: '{' :: pre) =
              Option.map (fun l => '{' :: l) (unescBraces pre) from rfl,
            hupre]; rfl
      · rw [← hout.1, ho]; rfl
  | case4 rest2 hne =>
      intro out b2 hu _ _
      cases hu
  | case5 used rest2 hused hne ih =>
      intro out b2 hu h0 hc
      rw [show countPH ('{' :: '}' :: rest2) = countPH rest2 + 1 from rfl] at h0
      have h0' : countPH rest2 = 0 := by omega
      rw [hu] at hc
      rw [show pyFormatCore arg ('{' :: '}' :: rest2) false =
            Option.map (fun p => (arg ++ p.1, p.2))
              (pyFormatCore arg rest2 true) from rfl] at hc
      rw [Option.map_eq_some'] at hc
      obtain ⟨⟨o2, b3⟩, hcore, hout⟩ := hc
      simp only [Prod.mk.injEq] at hout
      obtain ⟨hunesc, _⟩ := pyFormatCore_literal_segment arg rest2 true o2 b3 h0' hcore
      exact ⟨[], rest2, [], o2, rfl, rfl, h0', rfl, hunesc, by rw [← hout.1]; rfl⟩
  | case6 used c2 rest2 h1 h2 =>
      intro out b2 _ _ hc
      rw [show pyFormatCore arg ('{' :: c2 :: rest2) used = none by
            rw [pyFormatCore.eq_def]
            simp only [if_neg h1, if_neg h2]
            simp] at hc
      cases hc
  | case7 used hne =>
      intro out b2 _ _ hc
      rw [show pyFormatCore arg ['}'] used = none from rfl] at hc
      cases hc
  | case8 used rest2 hne ih =>
      intro out b2 hu h0 hc
      rw [show countPH ('}' :: '}' :: rest2) = countPH rest2 from rfl] at h0
      rw [show pyFormatCore arg ('}' :: '}' :: rest2) used =
            Option.map (fun p => ('}' :: p.1, p.2))
              (pyFormatCore arg rest2 used) from rfl] at hc
      rw [Option.map_eq_some'] at hc
      obtain ⟨⟨o2, b3⟩, hcore, hout⟩ := hc
      simp only [Prod.mk.injEq] at hout
      obtain ⟨pre, post, upre, upost, he, hp0, hq0, hupre, hupost, ho⟩ :=
        ih o2 b3 hu h0 hcore
      refine ⟨'}' :: '}' :: pre, post, '}' :: upre, upost, ?_, ?_, hq0, ?_, hupost, ?_⟩
      · rw [he]; rfl
      · rw [show countPH ('}' :: '}' :: pre) = countPH pre from rfl]; exact hp0
      · rw [show unescBraces ('}' :: '}' :: pre) =
              Option.map (fun l => '}' :: l) (unescBraces pre) from rfl,
            hupre]; rfl
      · rw [← hout.1, ho]; rfl
  | case9 used c2 rest2 h2 hne =>
      intro out b2 _ _ hc
      rw [show pyFormatCore arg ('}' :: c2 :: rest2) used = none by
            rw [pyFormatCore.eq_def]
            simp only [if_neg h2]
            simp] at hc
      cases hc
  | case10 c rest used h1 h2 ih =>
      intro out b2 hu h0 hc
      rw [countPH_cons_other c rest h1 h2] at h0
      rw [pyFormatCore_cons_other arg c rest used h1 h2, Option.map_eq_some'] at hc
      obtain ⟨⟨o2, b3⟩, hcore, hout⟩ := hc
      simp only [Prod.mk.injEq] at hout
      obtain ⟨pre, post, upre, upost, he, hp0, hq0, hupre, hupost, ho⟩ :=
        ih o2 b3 hu h0 hcore
      refine ⟨c :: pre, post, c :: upre, upost, ?_, ?_, hq0, ?_, hupost, ?_⟩
      · rw [he]; rfl
      · rw [countPH_cons_other c pre h1 h2]; exact hp0
      · rw [unescBraces_cons_other c pre h1 h2, hupre]; rfl
      · rw [← hout.1, ho]; rfl

/-- C7.  The substitution at line 193 (`test_command.format(config_file)`)
replaces the placeholder with the config-file path exactly once whenever
the template contains exactly one placeholder token: the command string is
the template's literal prefix, then the path - inserted at exactly the one
placeholder position - then the template's literal tail. -/
theorem test_command_single_placeholder_substituted_once (tpl arg out : List Char)
    (hone : countPH tpl = 1) (hfmt : pyFormat tpl arg = some out) :
    ∃ pre post upre upost,
      tpl = pre ++ '{' :: '}' :: post ∧
      countPH pre = 0 ∧ countPH post = 0 ∧
      unescBraces pre = some upre ∧ unescBraces post = some upost ∧
      out = upre ++ arg ++ upost := by
  rw [pyFormat, Option.map_eq_some'] at hfmt
  obtain ⟨⟨o, b⟩, hcore, ho⟩ := hfmt
  simp only at ho
  obtain ⟨pre, post, upre, upost, he, hp, hq, hu1, hu2, hout⟩ :=
    pyFormatCore_single_placeholder arg tpl false o b rfl hone hcore
  exact ⟨pre, post, upre, upost, he, hp, hq, hu1, hu2, by rw [← ho]; exact hout⟩

/-- Witness for C7 on the concrete template `r \x7b\x7d` and path `X`. -/
theorem test_command_single_placeholder_substituted_once_witness :
    countPH ['r', ' ', '{', '}'] = 1 ∧
    pyFormat ['r', ' ', '{', '}'] ['X'] = some ['r', ' ', 'X'] ∧
    (∃ pre post upre upost,
      ['r', ' ', '{', '}'] = pre ++ '{' :: '}' :: post ∧
      countPH pre = 0 ∧ countPH post = 0 ∧
      unescBraces pre = some upre ∧ unescBraces post = some upost ∧
      ['r', ' ', 'X'] = upre ++ ['X'] ++ upost) :=
  ⟨by decide, by decide,
   test_command_single_placeholder_substituted_once ['r', ' ', '{', '}'] ['X'] ['r', ' ', 'X'] (by decide) (by decide)⟩
